import Mathlib

set_option maxHeartbeats 1600000
set_option maxRecDepth 100000

/-!
Verification development for the Virtuous connector's incremental
extraction sync engine (src/virtuous/fetch.py, src/virtuous/sync.py,
src/virtuous/api.py).

The Python modules are shallowly embedded: pure functions become Lean
functions, the generator-based sync loops become explicit state passing
producing an event trace, and exceptions become `Except`.  Python's
`requests.exceptions.RequestException` hierarchy is modelled by the
`QueryOutcome` inductive: `reqErr` stands for any raised
`RequestException` (this includes `HTTPError`, hence also authentication
failures surfaced by `response.raise_for_status()`), while `fatalErr`
stands for any exception that is not a `RequestException`.

To state temporal/resource claims, the embeddings additionally return
the trace of query invocations (`FetchOut.calls`); the `result` field is
exactly the Python return value (or the propagated exception).
-/

namespace FivetranVirtuous

namespace Fetch

/-- Configuration constants of src/virtuous/fetch.py (lines 17-20). -/
def PAGE_SIZE : Nat := 1000

def BATCH_SIZE : Nat := 8000

def PARALLEL_REQUESTS : Nat := 8

def TAKE_SIZES : List Nat := [1000, 500, 250, 50, 10, 1]

/-- One condition object inside the payload reconstructed by
`_build_error_record` (fetch.py lines 112-139). -/
structure PayloadCondition where
  parameter : String
  operator : String
  value : String
  deriving DecidableEq, Repr

/-- The payload dict built by `_build_error_record`.  The source stores
`json.dumps(payload)` in the error record; we keep the structured value
(the serialisation is injective on this shape, so nothing is lost).
`groups = []` models the payload without a `"groups"` key. -/
structure Payload where
  sortBy : String
  descending : Bool
  groups : List (List PayloadCondition)
  deriving DecidableEq, Repr

/-- The `**query_kwargs` threaded through `fetch_page_adaptive` that
`_build_error_record` inspects (`id_cursor`, `modified_since`,
`modified_until`).  The `configuration` kwarg is not inspected there and
is folded into the query function itself. -/
structure QueryKwargs where
  id_cursor : Option Int
  modified_since : Option String
  modified_until : Option String
  deriving DecidableEq, Repr

/-- `ErrorRecord` dataclass (fetch.py lines 23-40). -/
structure ErrorRecord where
  url : String
  payload : Payload
  error_message : String
  skip : Nat
  take : Nat
  deriving DecidableEq, Repr

/-- The shape of a query function's successful JSON response:
a dict with a `"list"` key, a bare list, or a null/falsy value
(`_extract_list`, fetch.py lines 75-79, turns the latter into `[]`). -/
inductive Response (ρ : Type) where
  | withList (rows : List ρ)
  | bare (rows : List ρ)
  | null
  deriving DecidableEq, Repr

/-- Outcome of one call to the query function: a response, a raised
`requests.exceptions.RequestException` (any subclass, including
`HTTPError` — hence auth failures and other non-retryable HTTP statuses
surfaced by `raise_for_status`), or a raised non-`RequestException`. -/
inductive QueryOutcome (ρ : Type) where
  | ok (response : Response ρ)
  | reqErr (msg : String)
  | fatalErr (msg : String)
  deriving DecidableEq, Repr

/-- An element of the list returned by `fetch_page_adaptive`: either a
record from the API (`row`) or an `ErrorRecord` (fetch.py returns
`List[Union[dict, ErrorRecord]]`). -/
inductive Item (ρ : Type) where
  | row (r : ρ)
  | err (e : ErrorRecord)
  deriving DecidableEq, Repr

instance {ε α : Type} [DecidableEq ε] [DecidableEq α] : DecidableEq (Except ε α) := fun a b =>
  match a, b with
  | .error e, .error e' =>
    if h : e = e' then .isTrue (by rw [h]) else .isFalse (fun hh => by cases hh; exact h rfl)
  | .ok v, .ok v' =>
    if h : v = v' then .isTrue (by rw [h]) else .isFalse (fun hh => by cases hh; exact h rfl)
  | .error _, .ok _ => .isFalse (fun hh => by cases hh)
  | .ok _, .error _ => .isFalse (fun hh => by cases hh)

/-- `_extract_list` (fetch.py lines 75-79): `response.get("list",
response) or []` for dicts, `response or []` otherwise.  A falsy row
list is already `[]`. -/
def _extract_list {ρ : Type} : Response ρ → List ρ
  | .withList rows => rows
  | .bare rows => rows
  | .null => []

/-- Python truthiness of an optional string (`if modified_since:`):
false for `None` and for the empty string. -/
def truthyStr : Option String → Bool
  | none => false
  | some s => !(s == "")

/-- `needle` is a prefix of `hay` (char lists). -/
def charPrefix : List Char → List Char → Bool
  | [], _ => true
  | _ :: _, [] => false
  | c :: cs, d :: ds => c == d && charPrefix cs ds

/-- `needle` occurs somewhere in `hay` (char lists). -/
def charInfix (needle : List Char) : List Char → Bool
  | [] => charPrefix needle []
  | hay@(_ :: rest) => charPrefix needle hay || charInfix needle rest

/-- Python `sub in s` on strings. -/
def pyIn (sub s : String) : Bool := charInfix sub.data s.data

/-- Python `s.lower()` (ASCII-relevant part of `str.lower`). -/
def pyLower (s : String) : String := ⟨s.data.map Char.toLower⟩

/-- Python `s[:n]` — the first `n` characters (code points). -/
def pyTruncate (s : String) (n : Nat) : String := ⟨s.data.take n⟩

/-- `_build_error_record` (fetch.py lines 82-147): reconstructs the URL
from the query function's name, rebuilds the request payload from the
kwargs, and truncates the error message to 500 characters. -/
def _build_error_record (fn_name : String) (skip take : Nat) (error : String)
    (kw : QueryKwargs) : ErrorRecord :=
  let lower := pyLower fn_name
  let isGift := pyIn "gift" lower
  let isContact := pyIn "contact" lower
  let url :=
    if isGift then
      "https://api.virtuoussoftware.com/api/Gift/Query/FullGift?skip=" ++
        toString skip ++ "&take=" ++ toString take
    else if isContact then
      "https://api.virtuoussoftware.com/api/Contact/Query/FullContact?skip=" ++
        toString skip ++ "&take=" ++ toString take
    else
      "Unknown endpoint?skip=" ++ toString skip ++ "&take=" ++ toString take
  let sort_by := if isGift then "Gift Id" else "Contact Id"
  let id_param := if isGift then "Gift Id" else "Contact Id"
  let conditions :=
    (match kw.id_cursor with
      | some c => [PayloadCondition.mk id_param "GreaterThan" (toString c)]
      | none => []) ++
    (if truthyStr kw.modified_since then
      [PayloadCondition.mk "Last Modified Date" "OnOrAfter"
        (kw.modified_since.getD "")]
     else []) ++
    (if truthyStr kw.modified_until then
      [PayloadCondition.mk "Last Modified Date" "OnOrBefore"
        (kw.modified_until.getD "")]
     else [])
  let groups := if conditions.isEmpty then [] else [conditions]
  { url := url
    payload := { sortBy := sort_by, descending := false, groups := groups }
    error_message := pyTruncate error 500
    skip := skip
    take := take }

/-- Result of `fetch_page_adaptive`, instrumented with the trace of
query-function invocations `(skip, take)` in call order.  `result` is
the Python return value; `.error msg` means the exception `msg`
propagated to the caller. -/
structure FetchOut (ρ : Type) where
  result : Except String (List (Item ρ))
  calls : List (Nat × Nat)
  deriving DecidableEq

/-- The tail of `TAKE_SIZES` strictly after `take`'s (first) occurrence;
`[]` both when `take` is the minimum and when `take` is not in the list
(fetch.py lines 166-171: `ValueError` forces `next_idx = len`, and in
both cases `next_idx >= len(TAKE_SIZES)` triggers the base case). -/
def sizesAfter (take : Nat) : List Nat :=
  match TAKE_SIZES.indexOf? take with
  | some i => TAKE_SIZES.drop (i + 1)
  | none => []

/-- `sub_records and not isinstance(sub_records[-1], ErrorRecord)`:
the list is nonempty and its last element is not an `ErrorRecord`. -/
def lastIsErrorRecord {ρ : Type} (l : List (Item ρ)) : Bool :=
  match l.getLast? with
  | some (.err _) => true
  | some (.row _) => false
  | none => false

/-- The `for i in range(num_sub_calls)` loop of `fetch_page_adaptive`
(fetch.py lines 197-212), iterating over the remaining loop indices.
`F sub_skip` is the recursive fetch at the next smaller take size.
The loop extends the accumulated records and breaks when a sub-result
is nonempty, does not end in an `ErrorRecord`, and is shorter than
`smaller_take`; a propagated exception aborts the loop. -/
def subLoopF {ρ : Type} (F : Nat → FetchOut ρ) (skip smaller : Nat) :
    List Nat → FetchOut ρ
  | [] => ⟨.ok [], []⟩
  | i :: is =>
    let sub := F (skip + i * smaller)
    match sub.result with
    | .error msg => ⟨.error msg, sub.calls⟩
    | .ok sub_records =>
      if sub_records.isEmpty = false ∧ lastIsErrorRecord sub_records = false ∧
          sub_records.length < smaller then
        ⟨.ok sub_records, sub.calls⟩
      else
        let restOut := subLoopF F skip smaller is
        ⟨match restOut.result with
          | .error msg => .error msg
          | .ok l => .ok (sub_records ++ l), sub.calls ++ restOut.calls⟩

/-- `fetch_page_adaptive` (fetch.py lines 150-212), with the remaining
smaller take sizes passed explicitly (`rest = sizesAfter take`; the
source recomputes this from `TAKE_SIZES.index(take)` at every level —
see `sizesAfter_step` below for the coincidence proof). -/
def fetchGo {ρ : Type} (Q : Nat → Nat → QueryOutcome ρ) (fn_name : String)
    (kw : QueryKwargs) : (rest : List Nat) → (skip take : Nat) → FetchOut ρ
  | rest, skip, take =>
    match Q skip take with
    | .ok response => ⟨.ok ((_extract_list response).map Item.row), [(skip, take)]⟩
    | .fatalErr msg => ⟨.error msg, [(skip, take)]⟩
    | .reqErr msg =>
      match rest with
      | [] =>
        -- Base case: no smaller size exists - log error instead of crashing
        ⟨.ok [Item.err (_build_error_record fn_name skip take msg kw)], [(skip, take)]⟩
      | smaller :: rest' =>
        -- Recursively fetch `take / smaller` sub-pages
        let out := subLoopF (fun sub_skip => fetchGo Q fn_name kw rest' sub_skip smaller)
          skip smaller (List.range (take / smaller))
        ⟨out.result, (skip, take) :: out.calls⟩

/-- `fetch_page_adaptive(query_fn, skip, take, **query_kwargs)`:
the top-level entry point looks up `take` in `TAKE_SIZES` to determine
the remaining smaller sizes (fetch.py lines 166-171). -/
def fetch_page_adaptive {ρ : Type} (Q : Nat → Nat → QueryOutcome ρ)
    (fn_name : String) (kw : QueryKwargs) (skip take : Nat) : FetchOut ρ :=
  fetchGo Q fn_name kw (sizesAfter take) skip take

/-- Faithfulness of the `rest` parameter: for each consecutive pair in
`TAKE_SIZES`, re-deriving the remaining sizes from the smaller take (as
the Python recursion does via `TAKE_SIZES.index`) yields exactly the
tail passed by `fetchGo`. -/
theorem sizesAfter_step :
    ∀ i : Fin 5, sizesAfter (TAKE_SIZES.getD (i.val + 1) 0) =
      TAKE_SIZES.drop (i.val + 2) := by decide

/-- `True` when no exception propagated out of `fetch_page_adaptive`. -/
def exceptIsOk {ε α : Type} : Except ε α → Bool
  | .ok _ => true
  | .error _ => false

theorem sizesAfter_eq_nil_of_not_mem {take : Nat} (h : take ∉ TAKE_SIZES) :
    sizesAfter take = [] := by
  unfold sizesAfter
  rw [List.indexOf?_eq_none_iff.mpr]
  intro x hx
  simp only [beq_iff_eq]
  intro hxa
  exact h (hxa ▸ hx)

end Fetch

namespace Api

/-!  Model of the retry layer in src/virtuous/api.py (lines 105-271).
Sleeps, jitter and rate-limit pauses are timing-only and are dropped;
everything that decides *which* exception reaches the caller is kept. -/

/-- Exceptions observable from `request_with_retry`:
`requests.exceptions.HTTPError` (raised by `response.raise_for_status()`,
a subclass of `RequestException`) or another `RequestException`
(connection error, timeout).  -/
inductive PyExc where
  | httpError (status : Nat)
  | requestExc (msg : String)
  deriving DecidableEq, Repr

/-- Outcome of one underlying `rq.request` attempt: a response with a
status code, or a raised connection-level `RequestException`. -/
inductive AttemptResult where
  | resp (status : Nat)
  | connErr (msg : String)
  deriving DecidableEq, Repr

def MAX_RETRIES : Nat := 5

/-- `_is_retryable_error` (api.py lines 105-115). -/
def _is_retryable_error (status : Nat) : Bool :=
  status = 429 || status = 500 || status = 502 || status = 503 || status = 504

/-- The `for attempt in range(MAX_RETRIES + 1)` loop of
`request_with_retry` (api.py lines 174-266).  A retryable status (or a
connection error) is retried while attempts remain and otherwise raised
as `HTTPError` (resp. re-raised); a non-retryable HTTP error status is
raised as `HTTPError` immediately by `raise_for_status` and the
`except` block re-raises it without retrying; a 2xx/3xx response is
returned. -/
def requestLoop (attempts : Nat → AttemptResult) :
    (attempt remaining : Nat) → Except PyExc Nat
  | attempt, remaining =>
    match attempts attempt with
    | .connErr msg =>
      -- `remaining = MAX_RETRIES - attempt`, so
      -- `remaining > 0` is exactly `attempt < MAX_RETRIES`
      match remaining with
      | Nat.succ r => requestLoop attempts (attempt + 1) r
      | 0 => .error (.requestExc msg)
    | .resp status =>
      if _is_retryable_error status then
        match remaining with
        | Nat.succ r => requestLoop attempts (attempt + 1) r
        | 0 => .error (.httpError status)
      else if status ≥ 400 then .error (.httpError status)
      else .ok status

/-- `request_with_retry` (api.py lines 147-271), as a function of the
sequence of underlying attempt outcomes. -/
def request_with_retry (attempts : Nat → AttemptResult) : Except PyExc Nat :=
  requestLoop attempts 0 MAX_RETRIES

end Api

namespace Fetch

/-- C2 -- For every skip and every query function that raises a retryable
RequestException on every call, `fetch_page_adaptive(query_fn, skip,
take=1)` never raises and returns exactly one ErrorRecord describing the
failed request (with the failing window's skip and take recorded in it). -/
theorem fetch_take_one_single_error_record {ρ : Type}
    (Q : Nat → Nat → QueryOutcome ρ) (fn_name : String) (kw : QueryKwargs)
    (skip : Nat) (hQ : ∀ s t, ∃ m, Q s t = QueryOutcome.reqErr m) :
    ∃ e : ErrorRecord,
      fetch_page_adaptive Q fn_name kw skip 1 =
        ⟨Except.ok [Item.err e], [(skip, 1)]⟩ ∧ e.skip = skip ∧ e.take = 1 := by
  obtain ⟨m, hm⟩ := hQ skip 1
  refine ⟨_build_error_record fn_name skip 1 m kw, ?_, rfl, rfl⟩
  have hs : sizesAfter 1 = [] := by decide
  unfold fetch_page_adaptive
  rw [hs]
  unfold fetchGo
  rw [hm]

/-- Witness for C2 at a concrete always-failing query function. -/
theorem fetch_take_one_single_error_record_witness :
    ∃ e : ErrorRecord,
      fetch_page_adaptive (ρ := Unit)
          (fun _ _ => QueryOutcome.reqErr "503 Server Error")
          "query_gifts" ⟨none, none, none⟩ 7 1 =
        ⟨Except.ok [Item.err e], [(7, 1)]⟩ ∧ e.skip = 7 ∧ e.take = 1 :=
  fetch_take_one_single_error_record (ρ := Unit)
    (fun _ _ => QueryOutcome.reqErr "503 Server Error") "query_gifts"
    ⟨none, none, none⟩ 7 (fun _ _ => ⟨"503 Server Error", rfl⟩)

/-- C10 -- a take value outside the page-size sequence (e.g. 300) is not
split at all on a retryable failure: the whole window immediately
becomes a single ErrorRecord, exactly as in the exhausted take=1 case. -/
theorem fetch_take_not_in_sequence_no_split {ρ : Type}
    (Q : Nat → Nat → QueryOutcome ρ) (fn_name : String) (kw : QueryKwargs)
    (skip take : Nat) (msg : String) (htake : take ∉ TAKE_SIZES)
    (hQ : Q skip take = QueryOutcome.reqErr msg) :
    fetch_page_adaptive Q fn_name kw skip take =
      ⟨Except.ok [Item.err (_build_error_record fn_name skip take msg kw)],
        [(skip, take)]⟩ := by
  unfold fetch_page_adaptive
  rw [sizesAfter_eq_nil_of_not_mem htake]
  unfold fetchGo
  rw [hQ]

/-- Witness for C10 at take = 300. -/
theorem fetch_take_not_in_sequence_no_split_witness :
    fetch_page_adaptive (ρ := Unit) (fun _ _ => QueryOutcome.reqErr "500")
        "query_contacts" ⟨none, none, none⟩ 40 300 =
      ⟨Except.ok [Item.err (_build_error_record "query_contacts" 40 300 "500"
        ⟨none, none, none⟩)], [(40, 300)]⟩ :=
  fetch_take_not_in_sequence_no_split (fun _ _ => QueryOutcome.reqErr "500")
    "query_contacts" ⟨none, none, none⟩ 40 300 "500" (by decide) rfl

/-- An always-failing query function raising
`requests.exceptions.HTTPError: 401 Client Error: Unauthorized` — an
authentication failure.  `HTTPError` is a subclass of
`RequestException`, so it is modelled by `reqErr`. -/
def Q401 : Nat → Nat → QueryOutcome Unit :=
  fun _ _ => QueryOutcome.reqErr "401 Client Error: Unauthorized for url"

/-- C3 counterexample.  The claim says a non-retryable error (e.g. an
authentication failure) propagates out of `fetch_page_adaptive`
immediately, without splitting and without further sub-calls.  In the
code: (1) `request_with_retry` surfaces an auth failure (HTTP 401, not
retryable) as an `HTTPError`, which is a `RequestException`; (2)
`fetch_page_adaptive` catches every `RequestException` (fetch.py line
165 — the module docstring even says "adaptive resizing on ANY error"),
so on the window (skip=0, take=10) it does not propagate: it returns
normally (`exceptIsOk ... = true`) after issuing 11 query calls (the
initial one plus 10 sub-calls at take=1). -/
theorem fetch_auth_failure_not_propagated_cex :
    Api.request_with_retry (fun _ => Api.AttemptResult.resp 401) =
      Except.error (Api.PyExc.httpError 401) ∧
    exceptIsOk (fetch_page_adaptive Q401 "query_gifts"
      ⟨none, none, none⟩ 0 10).result = true ∧
    (fetch_page_adaptive Q401 "query_gifts" ⟨none, none, none⟩ 0 10).calls.length
      = 11 := by
  refine ⟨rfl, rfl, by decide⟩

/-- C3 amended -- only an exception that is not a `RequestException`
(e.g. a programmer error such as `TypeError`) propagates immediately out
of `fetch_page_adaptive`, with no splitting and no further sub-calls;
every `RequestException` — retryable or not, including auth-failure
`HTTPError`s — triggers the adaptive splitting instead. -/
theorem fetch_fatal_propagates_immediately {ρ : Type}
    (Q : Nat → Nat → QueryOutcome ρ) (fn_name : String) (kw : QueryKwargs)
    (skip take : Nat) (msg : String)
    (hQ : Q skip take = QueryOutcome.fatalErr msg) :
    fetch_page_adaptive Q fn_name kw skip take =
      ⟨Except.error msg, [(skip, take)]⟩ := by
  unfold fetch_page_adaptive
  unfold fetchGo
  rw [hQ]

/-- Witness for the amended C3. -/
theorem fetch_fatal_propagates_immediately_witness :
    fetch_page_adaptive (ρ := Unit)
        (fun _ _ => QueryOutcome.fatalErr "TypeError: bad argument")
        "query_gifts" ⟨none, none, none⟩ 3 1000 =
      ⟨Except.error "TypeError: bad argument", [(3, 1000)]⟩ :=
  fetch_fatal_propagates_immediately
    (fun _ _ => QueryOutcome.fatalErr "TypeError: bad argument")
    "query_gifts" ⟨none, none, none⟩ 3 1000 "TypeError: bad argument" rfl

/-! ### C4: structure of one split level -/

/-- The sub-windows of a failed window `(skip, take)` at the next
smaller take size: `take / smaller` contiguous windows at the same skip
origin, window `i` starting at `skip + i * smaller`, in ascending
order. -/
def subWindows (skip take smaller : Nat) : List (Nat × Nat) :=
  (List.range (take / smaller)).map (fun i => (skip + i * smaller, smaller))

/-- Declarative description of the split: fetch each sub-window with
`F`, concatenating results in order, stopping after a sub-window whose
result is nonempty, does not end in an `ErrorRecord`, and is shorter
than the sub-window take; a propagated exception aborts. -/
def splitSpec {ρ : Type} (F : Nat → Nat → FetchOut ρ) (smaller : Nat) :
    List (Nat × Nat) → FetchOut ρ
  | [] => ⟨.ok [], []⟩
  | (s, t) :: ws =>
    let sub := F s t
    match sub.result with
    | .error msg => ⟨.error msg, sub.calls⟩
    | .ok recs =>
      if recs.isEmpty = false ∧ lastIsErrorRecord recs = false ∧
          recs.length < smaller then
        ⟨.ok recs, sub.calls⟩
      else
        let restOut := splitSpec F smaller ws
        ⟨match restOut.result with
          | .error msg => .error msg
          | .ok l => .ok (recs ++ l), sub.calls ++ restOut.calls⟩

theorem sizesAfter_cons {take smaller : Nat} {rest' : List Nat}
    (h : sizesAfter take = smaller :: rest') : sizesAfter smaller = rest' := by
  unfold sizesAfter at h
  cases hidx : TAKE_SIZES.indexOf? take with
  | none =>
    rw [hidx] at h
    simp at h
  | some i =>
    rw [hidx] at h
    simp only at h
    have hi : i < 5 := by
      by_contra hge
      push_neg at hge
      have hnil : TAKE_SIZES.drop (i + 1) = [] :=
        List.drop_eq_nil_of_le (by simp [TAKE_SIZES]; omega)
      rw [hnil] at h
      exact absurd h (by simp)
    interval_cases i <;>
      · simp only [TAKE_SIZES, List.drop_succ_cons, List.drop_zero,
          List.cons.injEq] at h
        obtain ⟨h1, h2⟩ := h
        subst h1
        subst h2
        decide

theorem splitSpec_map_eq_subLoopF {ρ : Type} (F : Nat → Nat → FetchOut ρ)
    (G : Nat → FetchOut ρ) (skip smaller : Nat)
    (hFG : ∀ s, F s smaller = G s) :
    ∀ idxs : List Nat,
      splitSpec F smaller (idxs.map (fun i => (skip + i * smaller, smaller))) =
        subLoopF G skip smaller idxs := by
  intro idxs
  induction idxs with
  | nil => rfl
  | cons i is ih =>
    simp only [List.map_cons, splitSpec, subLoopF, hFG, ih]

/-- C4 amended -- on a retryable failure of a window `(skip, take)` whose
take has a next smaller size, `fetch_page_adaptive` fetches exactly the
`take / smaller_take` contiguous sub-windows at the same skip origin
(sub-window `i` at `skip + i * smaller_take`), in ascending order,
concatenating results in that order, and stops fetching the remaining
sub-windows after a sub-window whose result is nonempty, does not end
with an `ErrorRecord`, and has fewer results than its take —
irrespective of whether an `ErrorRecord` occurred earlier. -/
theorem fetch_split_structure {ρ : Type} (Q : Nat → Nat → QueryOutcome ρ)
    (fn_name : String) (kw : QueryKwargs) (skip take smaller : Nat)
    (rest' : List Nat) (msg : String)
    (hsz : sizesAfter take = smaller :: rest')
    (hQ : Q skip take = QueryOutcome.reqErr msg) :
    fetch_page_adaptive Q fn_name kw skip take =
      ⟨(splitSpec (fetch_page_adaptive Q fn_name kw) smaller
          (subWindows skip take smaller)).result,
        (skip, take) :: (splitSpec (fetch_page_adaptive Q fn_name kw) smaller
          (subWindows skip take smaller)).calls⟩ := by
  have hsmall := sizesAfter_cons hsz
  have hbridge := splitSpec_map_eq_subLoopF (fetch_page_adaptive Q fn_name kw)
    (fun s => fetchGo Q fn_name kw rest' s smaller) skip smaller
    (fun s => by unfold fetch_page_adaptive; rw [hsmall])
    (List.range (take / smaller))
  unfold subWindows
  rw [hbridge]
  conv_lhs => unfold fetch_page_adaptive
  rw [hsz]
  conv_lhs => rw [fetchGo]
  rw [hQ]

/-- An always-502 query function on unit records, for the C4 witness. -/
def Q502 : Nat → Nat → QueryOutcome Unit := fun _ _ => QueryOutcome.reqErr "502"

/-- The empty query kwargs (no id cursor, no modification window). -/
def kwNone : QueryKwargs := ⟨none, none, none⟩

/-- Witness for the amended C4 at the concrete window (0, 10). -/
theorem fetch_split_structure_witness :
    fetch_page_adaptive Q502 "query_gifts" kwNone 0 10 =
      ⟨(splitSpec (fetch_page_adaptive Q502 "query_gifts" kwNone) 1
          (subWindows 0 10 1)).result,
        (0, 10) :: (splitSpec (fetch_page_adaptive Q502 "query_gifts" kwNone) 1
          (subWindows 0 10 1)).calls⟩ :=
  fetch_split_structure Q502 "query_gifts" kwNone 0 10 1 [] "502"
    (by decide) rfl

/-- The query function of the C4 counterexample: every take other than 1
fails with a retryable 500; at take=1, skip 0 fails, skip 1 returns one
record, every other skip returns no records. -/
def Q4 : Nat → Nat → QueryOutcome Nat :=
  fun s t =>
    if t = 1 then
      if s = 0 then QueryOutcome.reqErr "500 Server Error"
      else if s = 1 then QueryOutcome.ok (Response.bare [1])
      else QueryOutcome.ok (Response.bare [])
    else QueryOutcome.reqErr "500 Server Error"

/-- C4 counterexample.  The claim says the split "stops fetching the
remaining sub-windows after a sub-window returns fewer results than its
take **only if no ErrorRecord preceded that point**".  With `Q4`, the
window (0, 50) splits into the five take=10 sub-windows (0,10), (10,10),
(20,10), (30,10), (40,10); the first sub-window yields
`[ErrorRecord(skip=0,take=1), row 1]` — two items, fewer than 10, not
ending in an `ErrorRecord`, but *preceded* by an `ErrorRecord`.  The
code stops anyway: the call trace shows that (10,10), (20,10), (30,10),
(40,10) are never queried, contradicting the claim's "only if no
ErrorRecord preceded that point". -/
theorem fetch_split_stop_despite_error_cex :
    (fetch_page_adaptive Q4 "query_gifts" kwNone 0 50).result =
      Except.ok [Item.err (_build_error_record "query_gifts" 0 1
        "500 Server Error" kwNone), Item.row 1] ∧
    (fetch_page_adaptive Q4 "query_gifts" kwNone 0 50).calls =
      [(0, 50), (0, 10), (0, 1), (1, 1), (2, 1), (3, 1), (4, 1), (5, 1),
        (6, 1), (7, 1), (8, 1), (9, 1)] ∧
    ¬((10, 10) ∈ (fetch_page_adaptive Q4 "query_gifts" kwNone 0 50).calls) := by
  refine ⟨by decide, by decide, by decide⟩

/-! ### C5: a permanently failing endpoint -/

/-- The message of the `RequestException` raised by the query function
for the unit window at `s` (used to describe the error records a
permanently failing endpoint produces). -/
def reqMsgAt {ρ : Type} (Q : Nat → Nat → QueryOutcome ρ) (s : Nat) : String :=
  match Q s 1 with
  | .reqErr m => m
  | _ => ""

/-- One `ErrorRecord` per minimal (take=1) failing sub-window of the
window `(skip, take)`: the `j`-th entry describes the unit window at
`skip + j`. -/
def unitErrs {ρ : Type} (Q : Nat → Nat → QueryOutcome ρ) (fn_name : String)
    (kw : QueryKwargs) (skip take : Nat) : List (Item ρ) :=
  (List.range take).map (fun j =>
    Item.err (_build_error_record fn_name (skip + j) 1 (reqMsgAt Q (skip + j)) kw))

/-- Total number of query sub-calls made for a window of size `take`
when every call fails with a retryable error, given the remaining
smaller sizes. -/
def callCount : Nat → List Nat → Nat
  | _, [] => 1
  | take, smaller :: rest => 1 + (take / smaller) * callCount smaller rest

/-- A descending chain of take sizes ending at 1 in which each size
tiles the previous one exactly (`(take / smaller) * smaller = take`);
`TAKE_SIZES` is such a chain. -/
inductive SizeChain : Nat → List Nat → Prop where
  | base : SizeChain 1 []
  | step (take smaller : Nat) (rest : List Nat)
      (htile : (take / smaller) * smaller = take)
      (hchain : SizeChain smaller rest) : SizeChain take (smaller :: rest)

theorem fetchGo_reqErr_nil {ρ : Type} (Q : Nat → Nat → QueryOutcome ρ)
    (fn_name : String) (kw : QueryKwargs) (skip take : Nat) (msg : String)
    (hQ : Q skip take = QueryOutcome.reqErr msg) :
    fetchGo Q fn_name kw [] skip take =
      ⟨Except.ok [Item.err (_build_error_record fn_name skip take msg kw)],
        [(skip, take)]⟩ := by
  rw [fetchGo, hQ]

theorem fetchGo_reqErr_cons {ρ : Type} (Q : Nat → Nat → QueryOutcome ρ)
    (fn_name : String) (kw : QueryKwargs) (skip take smaller : Nat)
    (rest' : List Nat) (msg : String)
    (hQ : Q skip take = QueryOutcome.reqErr msg) :
    fetchGo Q fn_name kw (smaller :: rest') skip take =
      ⟨(subLoopF (fun s => fetchGo Q fn_name kw rest' s smaller) skip smaller
          (List.range (take / smaller))).result,
        (skip, take) :: (subLoopF (fun s => fetchGo Q fn_name kw rest' s smaller)
          skip smaller (List.range (take / smaller))).calls⟩ := by
  rw [fetchGo, hQ]

theorem no_break_of_all_err {ρ : Type} {l : List (Item ρ)}
    (h : ∀ x ∈ l, ∃ e, x = Item.err e) :
    l.isEmpty = true ∨ lastIsErrorRecord l = true := by
  cases l with
  | nil => exact Or.inl rfl
  | cons a t =>
    right
    have hsome : (a :: t).getLast? = some ((a :: t).getLast (by simp)) :=
      List.getLast?_eq_getLast _ (by simp)
    obtain ⟨e, he⟩ := h _ (List.getLast_mem (l := a :: t) (by simp))
    unfold lastIsErrorRecord
    rw [hsome, he]

/-- When every sub-fetch succeeds and no sub-result triggers the
short-circuit (it is empty or ends in an `ErrorRecord`), the sub-window
loop concatenates everything and its call counts add up. -/
theorem subLoopF_all_ok {ρ : Type} (G : Nat → FetchOut ρ) (skip smaller : Nat)
    (E : Nat → List (Item ρ)) (L : Nat → Nat)
    (hG : ∀ i, (G (skip + i * smaller)).result = Except.ok (E i))
    (hL : ∀ i, (G (skip + i * smaller)).calls.length = L i)
    (hnb : ∀ i, (E i).isEmpty = true ∨ lastIsErrorRecord (E i) = true) :
    ∀ idxs : List Nat,
      (subLoopF G skip smaller idxs).result = Except.ok ((idxs.map E).flatten) ∧
      (subLoopF G skip smaller idxs).calls.length = (idxs.map L).sum := by
  intro idxs
  induction idxs with
  | nil => exact ⟨rfl, rfl⟩
  | cons i is ih =>
    have hcond : ¬((E i).isEmpty = false ∧ lastIsErrorRecord (E i) = false ∧
        (E i).length < smaller) := by
      rcases hnb i with h | h <;> simp [h]
    cases hGi : G (skip + i * smaller) with
    | mk res calls =>
      have hres : res = Except.ok (E i) := by
        have := hG i
        rw [hGi] at this
        exact this
      have hcalls : calls.length = L i := by
        have := hL i
        rw [hGi] at this
        exact this
      subst hres
      obtain ⟨ih1, ih2⟩ := ih
      constructor
      · simp only [subLoopF, hGi]
        rw [if_neg hcond, ih1]
        simp
      · simp only [subLoopF, hGi]
        rw [if_neg hcond]
        simp only [List.map_cons, List.sum_cons, List.length_append, hcalls, ih2]

theorem join_range_blocks {α : Type} (g : Nat → α) (smaller : Nat) :
    ∀ (n skip : Nat),
      ((List.range n).map (fun i =>
        (List.range smaller).map (fun j => g (skip + i * smaller + j)))).flatten
        = (List.range (n * smaller)).map (fun j => g (skip + j)) := by
  intro n
  induction n with
  | zero => intro skip; simp
  | succ n ih =>
    intro skip
    rw [List.range_succ, List.map_append, List.flatten_append, ih skip]
    rw [Nat.succ_mul, List.range_add]
    simp [List.map_map, Function.comp_def, Nat.add_assoc]

theorem unitErrs_all_err {ρ : Type} (Q : Nat → Nat → QueryOutcome ρ)
    (fn_name : String) (kw : QueryKwargs) (skip take : Nat) :
    ∀ x ∈ unitErrs Q fn_name kw skip take, ∃ e, x = Item.err e := by
  intro x hx
  simp only [unitErrs, List.mem_map] at hx
  obtain ⟨j, _, hj⟩ := hx
  exact ⟨_, hj.symm⟩

/-- Under a permanently failing query function, `fetchGo` along a size
chain returns exactly one error record per unit window and the call
count satisfies the `callCount` recurrence. -/
theorem fetchGo_all_fail {ρ : Type} (Q : Nat → Nat → QueryOutcome ρ)
    (fn_name : String) (kw : QueryKwargs)
    (hQ : ∀ s t, ∃ m, Q s t = QueryOutcome.reqErr m) :
    ∀ (take : Nat) (rest : List Nat), SizeChain take rest → ∀ skip : Nat,
      (fetchGo Q fn_name kw rest skip take).result =
        Except.ok (unitErrs Q fn_name kw skip take) ∧
      (fetchGo Q fn_name kw rest skip take).calls.length = callCount take rest := by
  intro take rest hchain
  induction hchain with
  | base =>
    intro skip
    obtain ⟨m, hm⟩ := hQ skip 1
    rw [fetchGo_reqErr_nil Q fn_name kw skip 1 m hm]
    constructor
    · simp only [unitErrs, show List.range 1 = [0] from rfl, List.map_cons,
        List.map_nil, Nat.add_zero, reqMsgAt, hm]
    · rfl
  | step take smaller rest htile hchain ih =>
    intro skip
    obtain ⟨m, hm⟩ := hQ skip take
    rw [fetchGo_reqErr_cons Q fn_name kw skip take smaller rest m hm]
    have hsub := subLoopF_all_ok (fun s => fetchGo Q fn_name kw rest s smaller)
      skip smaller
      (fun i => unitErrs Q fn_name kw (skip + i * smaller) smaller)
      (fun _ => callCount smaller rest)
      (fun i => (ih (skip + i * smaller)).1)
      (fun i => (ih (skip + i * smaller)).2)
      (fun i => no_break_of_all_err (unitErrs_all_err Q fn_name kw _ smaller))
      (List.range (take / smaller))
    constructor
    · rw [hsub.1]
      have hjoin := join_range_blocks
        (fun s => (Item.err (_build_error_record fn_name s 1 (reqMsgAt Q s) kw) : Item ρ))
        smaller (take / smaller) skip
      rw [htile] at hjoin
      simp only [unitErrs]
      exact congrArg Except.ok hjoin
    · simp only [List.length_cons, hsub.2]
      simp only [callCount, List.map_const', List.length_range,
        List.sum_replicate, smul_eq_mul]
      omega

/-- C5 -- for a query function that raises a retryable error on every
call, `fetch_page_adaptive` at take=1000 terminates after exactly
1 + 2 + 4 + 20 + 100 + 1000 = 1127 query sub-calls, never raises, and
returns exactly one ErrorRecord per minimal (take=1) failing
sub-window: the `j`-th of the 1000 returned items is the ErrorRecord
for the unit window at `skip + j`. -/
theorem fetch_adaptive_permanent_failure_bound {ρ : Type}
    (Q : Nat → Nat → QueryOutcome ρ) (fn_name : String) (kw : QueryKwargs)
    (skip : Nat) (hQ : ∀ s t, ∃ m, Q s t = QueryOutcome.reqErr m) :
    (fetch_page_adaptive Q fn_name kw skip 1000).calls.length = 1127 ∧
    (fetch_page_adaptive Q fn_name kw skip 1000).result =
      Except.ok (unitErrs Q fn_name kw skip 1000) ∧
    (unitErrs Q fn_name kw skip 1000).length = 1000 ∧
    (∀ j, j < 1000 → (unitErrs Q fn_name kw skip 1000).get? j =
      some (Item.err (_build_error_record fn_name (skip + j) 1
        (reqMsgAt Q (skip + j)) kw))) := by
  have hsz : sizesAfter 1000 = [500, 250, 50, 10, 1] := by decide
  have hchain : SizeChain 1000 [500, 250, 50, 10, 1] :=
    .step _ _ _ (by decide) (.step _ _ _ (by decide) (.step _ _ _ (by decide)
      (.step _ _ _ (by decide) (.step _ _ _ (by decide) .base))))
  have h := fetchGo_all_fail Q fn_name kw hQ 1000 [500, 250, 50, 10, 1] hchain skip
  have hfp : fetch_page_adaptive Q fn_name kw skip 1000 =
      fetchGo Q fn_name kw [500, 250, 50, 10, 1] skip 1000 := by
    unfold fetch_page_adaptive
    rw [hsz]
  refine ⟨?_, ?_, ?_, ?_⟩
  · rw [hfp, h.2]
    decide
  · rw [hfp, h.1]
  · simp [unitErrs]
  · intro j hj
    simp only [unitErrs, List.get?_eq_getElem?, List.getElem?_map]
    rw [List.getElem?_range hj]
    rfl

/-- Witness for C5 at a concrete permanently failing query function. -/
theorem fetch_adaptive_permanent_failure_bound_witness :
    (fetch_page_adaptive Q502 "query_gifts" kwNone 0 1000).calls.length = 1127 ∧
    (fetch_page_adaptive Q502 "query_gifts" kwNone 0 1000).result =
      Except.ok (unitErrs Q502 "query_gifts" kwNone 0 1000) ∧
    (unitErrs Q502 "query_gifts" kwNone 0 1000).length = 1000 ∧
    (∀ j, j < 1000 → (unitErrs Q502 "query_gifts" kwNone 0 1000).get? j =
      some (Item.err (_build_error_record "query_gifts" (0 + j) 1
        (reqMsgAt Q502 (0 + j)) kwNone))) :=
  fetch_adaptive_permanent_failure_bound Q502 "query_gifts" kwNone 0
    (fun _ _ => ⟨"502", rfl⟩)

/-! ### `fetch_batch_parallel` (fetch.py lines 215-277)

The thread pool issues `PARALLEL_REQUESTS` fetches, one per page-sized
slot; `as_completed` yields their futures in an arbitrary completion
order, modelled by the permutation `completion`; the collected results
are then sorted by their originating skip offset and processed in that
order. -/

/-- The per-record max-id update of the processing loop (fetch.py lines
264-270): error records are skipped, a `None` extracted id is skipped,
and a larger id replaces the running maximum. -/
def maxIdFold {ρ : Type} (extract_id : ρ → Option Int) (m : Option Int)
    (record : Item ρ) : Option Int :=
  match record with
  | .err _ => m
  | .row r =>
    match extract_id r with
    | none => m
    | some record_id =>
      match m with
      | none => some record_id
      | some mm => if record_id > mm then some record_id else some mm

/-- The processing loop of `fetch_batch_parallel` (fetch.py lines
253-274): scan slot results in ascending skip order, break on an empty
slot, accumulate records, track the max extracted id over non-error
records, and break after a slot with fewer than `PAGE_SIZE` items. -/
def processLoop {ρ : Type} (extract_id : ρ → Option Int) :
    List (Nat × List (Item ρ)) → List (Item ρ) → Option Int →
      List (Item ρ) × Option Int × Bool
  | [], all_records, max_id => (all_records, max_id, false)
  | (_, records) :: rest, all_records, max_id =>
    if records.isEmpty then (all_records, max_id, true)
    else
      let all_records' := all_records ++ records
      let max_id' := records.foldl (maxIdFold extract_id) max_id
      if records.length < PAGE_SIZE then (all_records', max_id', true)
      else processLoop extract_id rest all_records' max_id'

/-- The value of a succeeded fetch result (`[]` for an exception; only
used where the result is known to be ok). -/
def okValue {ρ : Type} : Except String (List (Item ρ)) → List (Item ρ)
  | .ok l => l
  | .error _ => []

/-- Collect the slot results in completion order; `future.result()`
re-raises the first stored exception encountered (fetch.py lines
245-249). -/
def collectResults {ρ : Type} (slots : Nat → FetchOut ρ) :
    List Nat → Except String (List (Nat × List (Item ρ)))
  | [] => .ok []
  | i :: rest =>
    match (slots i).result with
    | .error msg => .error msg
    | .ok records =>
      match collectResults slots rest with
      | .error msg => .error msg
      | .ok acc => .ok ((i * PAGE_SIZE, records) :: acc)

/-- `fetch_batch_parallel` (fetch.py lines 215-277), as a function of
the completion order of the eight futures. -/
def fetch_batch_parallel {ρ : Type} (Q : Nat → Nat → QueryOutcome ρ)
    (fn_name : String) (kw : QueryKwargs) (extract_id : ρ → Option Int)
    (completion : List Nat) :
    Except String (List (Item ρ) × Option Int × Bool) :=
  match collectResults
      (fun i => fetch_page_adaptive Q fn_name kw (i * PAGE_SIZE) PAGE_SIZE)
      completion with
  | .error msg => .error msg
  | .ok results =>
    -- `results.sort(key=lambda x: x[0])`: Python's sort is a stable
    -- comparison sort; modelled by stable insertion sort on the key
    .ok (processLoop extract_id
      (List.insertionSort (fun a b => a.1 ≤ b.1) results) [] none)

/-- Modelled from the spec's reference point (§8 "Reordering
correctness"): fetch the same windows strictly sequentially in skip
order, processing each slot as it arrives with the same end-of-stream
rule. -/
def seqGo {ρ : Type} (slots : Nat → FetchOut ρ) (extract_id : ρ → Option Int) :
    List Nat → List (Item ρ) → Option Int →
      Except String (List (Item ρ) × Option Int × Bool)
  | [], acc, m => .ok (acc, m, false)
  | i :: rest, acc, m =>
    match (slots i).result with
    | .error msg => .error msg
    | .ok records =>
      if records.isEmpty then .ok (acc, m, true)
      else
        let acc' := acc ++ records
        let m' := records.foldl (maxIdFold extract_id) m
        if records.length < PAGE_SIZE then .ok (acc', m', true)
        else seqGo slots extract_id rest acc' m'

/-- Strictly sequential fetching of the same windows, in skip order. -/
def fetch_batch_sequential {ρ : Type} (Q : Nat → Nat → QueryOutcome ρ)
    (fn_name : String) (kw : QueryKwargs) (extract_id : ρ → Option Int) :
    Except String (List (Item ρ) × Option Int × Bool) :=
  seqGo (fun i => fetch_page_adaptive Q fn_name kw (i * PAGE_SIZE) PAGE_SIZE)
    extract_id (List.range PARALLEL_REQUESTS) [] none

theorem eq_of_perm_of_strict_sorted {β : Type} :
    ∀ (l₁ l₂ : List (Nat × β)), l₁.Perm l₂ →
      l₁.Pairwise (fun a b => a.1 < b.1) →
      l₂.Pairwise (fun a b => a.1 ≤ b.1) → l₂ = l₁ := by
  intro l₁
  induction l₁ with
  | nil => intro l₂ hp _ _; exact hp.symm.eq_nil
  | cons a t ih =>
    intro l₂ hp hs1 hs2
    cases l₂ with
    | nil => exact absurd hp.eq_nil (by simp)
    | cons b t₂ =>
      have hba : b = a := by
        have hbmem : b ∈ a :: t := hp.symm.subset (List.mem_cons_self b t₂)
        rcases List.mem_cons.mp hbmem with h | hbt
        · exact h
        · exfalso
          have halt : a.1 < b.1 := (List.pairwise_cons.mp hs1).1 b hbt
          have hamem : a ∈ b :: t₂ := hp.subset (List.mem_cons_self a t)
          rcases List.mem_cons.mp hamem with h | hat
          · rw [h] at halt; exact lt_irrefl _ halt
          · have : b.1 ≤ a.1 := (List.pairwise_cons.mp hs2).1 a hat
            omega
      subst hba
      have ht : t.Perm t₂ := hp.cons_inv
      have := ih t₂ ht (List.pairwise_cons.mp hs1).2 (List.pairwise_cons.mp hs2).2
      rw [this]

theorem collectResults_ok {ρ : Type} (slots : Nat → FetchOut ρ) :
    ∀ π : List Nat, (∀ i ∈ π, exceptIsOk (slots i).result = true) →
      collectResults slots π =
        .ok (π.map (fun i => (i * PAGE_SIZE, okValue (slots i).result))) := by
  intro π
  induction π with
  | nil => intro _; rfl
  | cons i rest ih =>
    intro h
    have hi := h i (List.mem_cons_self i rest)
    have hrest := ih (fun j hj => h j (List.mem_cons_of_mem i hj))
    cases hres : (slots i).result with
    | error msg => rw [hres] at hi; exact absurd hi (by simp [exceptIsOk])
    | ok records =>
      simp only [collectResults, hres, hrest, List.map_cons, okValue]

theorem seqGo_eq_processLoop {ρ : Type} (slots : Nat → FetchOut ρ)
    (extract_id : ρ → Option Int) :
    ∀ (idxs : List Nat) (acc : List (Item ρ)) (m : Option Int),
      (∀ i ∈ idxs, exceptIsOk (slots i).result = true) →
      seqGo slots extract_id idxs acc m =
        .ok (processLoop extract_id
          (idxs.map (fun i => (i * PAGE_SIZE, okValue (slots i).result))) acc m) := by
  intro idxs
  induction idxs with
  | nil => intro acc m _; rfl
  | cons i rest ih =>
    intro acc m h
    have hi := h i (List.mem_cons_self i rest)
    cases hres : (slots i).result with
    | error msg => rw [hres] at hi; exact absurd hi (by simp [exceptIsOk])
    | ok records =>
      simp only [seqGo, hres, List.map_cons, okValue, processLoop]
      by_cases hempty : records.isEmpty
      · simp [hempty]
      · simp only [hempty, Bool.false_eq_true, if_false]
        by_cases hshort : records.length < PAGE_SIZE
        · simp [hshort]
        · simp only [hshort, if_false]
          exact ih _ _ (fun j hj => h j (List.mem_cons_of_mem i hj))

/-- C6 -- for every completion order of the `PARALLEL_REQUESTS` slots
(any permutation of the slot indices) in a round in which no slot
propagates an exception, `fetch_batch_parallel` returns exactly the
`(records, max_id, reached_end)` triple of strictly sequential fetching
of the same windows in skip order: the sort by originating skip offset
makes completion order irrelevant. -/
theorem fetch_batch_parallel_reorders {ρ : Type} (Q : Nat → Nat → QueryOutcome ρ)
    (fn_name : String) (kw : QueryKwargs) (extract_id : ρ → Option Int)
    (π : List Nat) (hπ : π.Perm (List.range PARALLEL_REQUESTS))
    (hok : ∀ i ∈ List.range PARALLEL_REQUESTS,
      exceptIsOk (fetch_page_adaptive Q fn_name kw (i * PAGE_SIZE) PAGE_SIZE).result
        = true) :
    fetch_batch_parallel Q fn_name kw extract_id π =
      fetch_batch_sequential Q fn_name kw extract_id := by
  have hokπ : ∀ i ∈ π, exceptIsOk
      (fetch_page_adaptive Q fn_name kw (i * PAGE_SIZE) PAGE_SIZE).result = true :=
    fun i hi => hok i (hπ.subset hi)
  unfold fetch_batch_parallel fetch_batch_sequential
  rw [collectResults_ok _ π hokπ]
  rw [seqGo_eq_processLoop _ extract_id (List.range PARALLEL_REQUESTS) [] none hok]
  have hsorteq : List.insertionSort (fun a b => a.1 ≤ b.1)
        (π.map (fun i =>
          (i * PAGE_SIZE, okValue (fetch_page_adaptive Q fn_name kw
            (i * PAGE_SIZE) PAGE_SIZE).result))) =
      (List.range PARALLEL_REQUESTS).map (fun i =>
        (i * PAGE_SIZE, okValue (fetch_page_adaptive Q fn_name kw
          (i * PAGE_SIZE) PAGE_SIZE).result)) := by
    apply eq_of_perm_of_strict_sorted
    · exact ((List.perm_insertionSort _ _).trans (hπ.map _)).symm
    · refine (List.pairwise_map.mpr ?_)
      exact (List.pairwise_lt_range PARALLEL_REQUESTS).imp
        (fun h => by simpa [PAGE_SIZE] using h)
    · haveI : IsTotal (Nat × List (Item ρ)) (fun a b => a.1 ≤ b.1) :=
        ⟨fun a b => Nat.le_total a.1 b.1⟩
      haveI : IsTrans (Nat × List (Item ρ)) (fun a b => a.1 ≤ b.1) :=
        ⟨fun _ _ _ hab hbc => Nat.le_trans hab hbc⟩
      exact List.sorted_insertionSort _ _
  simp only [hsorteq]

/-- A query function returning an empty list for every window, for the
C6 witness. -/
def Qempty : Nat → Nat → QueryOutcome Unit := fun _ _ => QueryOutcome.ok (Response.bare [])

/-- Witness for C6 at a concrete round with reversed completion order. -/
theorem fetch_batch_parallel_reorders_witness :
    fetch_batch_parallel Qempty "query_gifts" kwNone (fun _ => none)
        [7, 6, 5, 4, 3, 2, 1, 0] =
      fetch_batch_sequential Qempty "query_gifts" kwNone (fun _ => none) :=
  fetch_batch_parallel_reorders Qempty "query_gifts" kwNone (fun _ => none)
    [7, 6, 5, 4, 3, 2, 1, 0] (by decide) (by decide)


/-! ### C7: error records in a round -/

/-- Whether an item is an `ErrorRecord`. -/
def isErrItem {ρ : Type} : Item ρ → Bool
  | .err _ => true
  | .row _ => false

/-- `max_id_seen` of a record list: the running maximum of extracted
ids over non-error records, `none` if there is none. -/
def maxIdOf {ρ : Type} (extract_id : ρ → Option Int) (records : List (Item ρ)) :
    Option Int :=
  records.foldl (maxIdFold extract_id) none

/-- Index of the first slot whose total item count (valid rows plus
error records) is below `PAGE_SIZE`; an empty slot counts. -/
def firstShortIdx {ρ : Type} (rss : List (List (Item ρ))) : Option Nat :=
  rss.findIdx? (fun records => decide (records.length < PAGE_SIZE))

theorem processLoop_closed {ρ : Type} (eid : ρ → Option Int) :
    ∀ (pairs : List (Nat × List (Item ρ))) (acc : List (Item ρ)) (m : Option Int),
      processLoop eid pairs acc m =
        match firstShortIdx (pairs.map Prod.snd) with
        | some k =>
          (acc ++ ((pairs.map Prod.snd).take (k + 1)).flatten,
            (((pairs.map Prod.snd).take (k + 1)).flatten).foldl (maxIdFold eid) m,
            true)
        | none =>
          (acc ++ (pairs.map Prod.snd).flatten,
            ((pairs.map Prod.snd).flatten).foldl (maxIdFold eid) m,
            false) := by
  intro pairs
  induction pairs with
  | nil => intro acc m; simp [processLoop, firstShortIdx]
  | cons hd rest ih =>
    intro acc m
    obtain ⟨s, records⟩ := hd
    by_cases hempty : records.isEmpty
    · have hrec : records = [] := List.isEmpty_iff.mp hempty
      subst hrec
      have hfirst : firstShortIdx (([] : List (Item ρ)) :: rest.map Prod.snd)
          = some 0 := by
        simp [firstShortIdx, List.findIdx?_cons, PAGE_SIZE]
      simp [processLoop, hfirst]
    · by_cases hshort : records.length < PAGE_SIZE
      · have hfirst : firstShortIdx (records :: rest.map Prod.snd) = some 0 := by
          simp [firstShortIdx, List.findIdx?_cons, hshort]
        simp [processLoop, hempty, hshort, hfirst]
      · have hp : (decide (records.length < PAGE_SIZE)) = false := by
          simp [hshort]
        have hfirst : firstShortIdx (records :: rest.map Prod.snd) =
            (firstShortIdx (rest.map Prod.snd)).map (· + 1) := by
          simp only [firstShortIdx, List.findIdx?_cons, hp, if_false]
          exact List.findIdx?_succ
        simp only [processLoop, hempty, Bool.false_eq_true, if_false, hshort]
        rw [ih (acc ++ records) (records.foldl (maxIdFold eid) m)]
        simp only [List.map_cons, hfirst]
        cases hk : firstShortIdx (rest.map Prod.snd) with
        | some k =>
          simp [List.take_succ_cons, List.flatten_cons, List.append_assoc,
            List.foldl_append]
        | none =>
          simp [List.flatten_cons, List.append_assoc, List.foldl_append]

theorem foldl_maxIdFold_filter {ρ : Type} (eid : ρ → Option Int) :
    ∀ (l : List (Item ρ)) (m : Option Int),
      l.foldl (maxIdFold eid) m =
        (l.filter (fun x => !isErrItem x)).foldl (maxIdFold eid) m := by
  intro l
  induction l with
  | nil => intro m; rfl
  | cons x xs ih =>
    intro m
    cases x with
    | err e => simp [List.foldl_cons, maxIdFold, isErrItem, List.filter_cons, ih]
    | row r => simp [List.foldl_cons, maxIdFold, isErrItem, List.filter_cons, ih]

/-- C7 amended -- in the processing stage of `fetch_batch_parallel`:
(1) the returned record list is exactly the in-order concatenation of
the processed prefix of slot results — error records are passed through
unchanged in place; (2) `max_id_seen` is the maximum extracted id over
non-error records of the round (removing the error records does not
change it), `none` if the round produced no valid rows; but (3) the
`reached_end` flag is decided by each slot's TOTAL item count — valid
rows *plus* error records — relative to `PAGE_SIZE`, so error records
do affect `reached_end` (a slot padded to `PAGE_SIZE` items by error
records does not signal end-of-stream). -/
theorem batch_round_error_records_amended {ρ : Type} (eid : ρ → Option Int) :
    (∀ pairs : List (Nat × List (Item ρ)),
      processLoop eid pairs [] none =
        match firstShortIdx (pairs.map Prod.snd) with
        | some k =>
          (((pairs.map Prod.snd).take (k + 1)).flatten,
            maxIdOf eid (((pairs.map Prod.snd).take (k + 1)).flatten), true)
        | none =>
          ((pairs.map Prod.snd).flatten,
            maxIdOf eid ((pairs.map Prod.snd).flatten), false)) ∧
    (∀ l : List (Item ρ),
      maxIdOf eid l = maxIdOf eid (l.filter (fun x => !isErrItem x))) := by
  constructor
  · intro pairs
    rw [processLoop_closed eid pairs [] none]
    cases hk : firstShortIdx (pairs.map Prod.snd) with
    | some k => simp [maxIdOf]
    | none => simp [maxIdOf]
  · intro l
    exact foldl_maxIdFold_filter eid l none

/-- Witness for the amended C7 on a concrete round: slot 0 holds one
error record between two rows, slot 1 is short. -/
theorem batch_round_error_records_amended_witness :
    (processLoop (fun n : Nat => some (n : Int))
        [(0, [Item.row 5, Item.err (_build_error_record "query_gifts" 1 1 "500"
          kwNone), Item.row 7]), (1000, [])] [] none =
      ([Item.row 5, Item.err (_build_error_record "query_gifts" 1 1 "500"
          kwNone), Item.row 7], some 7, true)) ∧
    maxIdOf (fun n : Nat => some (n : Int))
      [Item.row 5, Item.err (_build_error_record "query_gifts" 1 1 "500" kwNone),
        Item.row 7] = some 7 := by
  have h := batch_round_error_records_amended (ρ := Nat) (fun n => some (n : Int))
  constructor
  · rw [h.1 [(0, [Item.row 5, Item.err (_build_error_record "query_gifts" 1 1
      "500" kwNone), Item.row 7]), (1000, [])]]
    decide
  · rw [h.2 [Item.row 5, Item.err (_build_error_record "query_gifts" 1 1 "500"
      kwNone), Item.row 7]]
    decide

/-- Extracted-id function for the C7 counterexample: the record itself. -/
def eidNat : Nat → Option Int := fun n => some (n : Int)

/-- Query function for the C7 counterexample.  Slot 0 (skip 0) fails
adaptively down to exactly one failing unit window (skip 999), so its
fetched page is 999 valid rows plus 1 error record = 1000 items; slots
1-7 return full 1000-row pages. -/
def Q7 : Nat → Nat → QueryOutcome Nat := fun s t =>
  if t = 1000 then
    if s = 0 then QueryOutcome.reqErr "500"
    else QueryOutcome.ok (Response.bare ((List.range 1000).map (fun j => s + j)))
  else if t = 500 then
    if s = 0 then QueryOutcome.ok (Response.bare ((List.range 500).map (fun j => s + j)))
    else QueryOutcome.reqErr "500"
  else if t = 250 then
    if s = 500 then QueryOutcome.ok (Response.bare ((List.range 250).map (fun j => s + j)))
    else QueryOutcome.reqErr "500"
  else if t = 50 then
    if s = 950 then QueryOutcome.reqErr "500"
    else QueryOutcome.ok (Response.bare ((List.range 50).map (fun j => s + j)))
  else if t = 10 then
    if s = 990 then QueryOutcome.reqErr "500"
    else QueryOutcome.ok (Response.bare ((List.range 10).map (fun j => s + j)))
  else
    if s = 999 then QueryOutcome.reqErr "500"
    else QueryOutcome.ok (Response.bare [s])

/-- C7 counterexample.  The claim says error records "affect neither the
reached_end flag (which depends only on the valid rows of each slot
relative to the requested page size)".  With `Q7`, slot 0 yields only
999 valid rows (fewer than `PAGE_SIZE`), so under the claim's reading
the round reached the end.  But the slot also contains 1 error record,
bringing its total item count to exactly 1000, and the code compares
`len(records)` — including error records — against `PAGE_SIZE`
(fetch.py line 272): with slots 1-7 full, the round returns
`reached_end = false` and all 8000 items.  The error record changed
`reached_end`, contradicting the claim. -/
theorem batch_reached_end_counts_error_records_cex :
    Except.map (fun t => t.2.2)
        (fetch_batch_parallel Q7 "query_gifts" kwNone eidNat
          [0, 1, 2, 3, 4, 5, 6, 7]) = Except.ok false ∧
    (okValue (fetch_page_adaptive Q7 "query_gifts" kwNone 0 1000).result).length
      = 1000 ∧
    (okValue (fetch_page_adaptive Q7 "query_gifts" kwNone 0 1000).result).countP
      isErrItem = 1 := by
  refine ⟨by decide, by decide, by decide⟩

/-! ### Persisted sync state and the `IDCursor` (fetch.py lines 43-72) -/

/-- A value stored in the persisted state dict: Python `int`, `str`,
`bool` or `None`. -/
inductive StateVal where
  | vInt (i : Int)
  | vStr (s : String)
  | vBool (b : Bool)
  | vNone
  deriving DecidableEq, Repr

/-- The persisted state dict, as an association list with unique keys
(Python `dict`). -/
def StateDict : Type := List (String × StateVal)

instance : DecidableEq StateDict :=
  inferInstanceAs (DecidableEq (List (String × StateVal)))

/-- `state.get(key)`: `None` both when the key is absent and when the
stored value is `None` itself (the latter is `some .vNone`). -/
def stateGet (state : StateDict) (key : String) : Option StateVal :=
  List.lookup key state

/-- `IDCursor` dataclass (fetch.py lines 43-49). -/
structure IDCursor where
  entity_type : String
  last_id : Option Int
  total_synced : Int
  deriving DecidableEq, Repr

/-- `IDCursor.to_state` (fetch.py lines 51-55). -/
def IDCursor.to_state (c : IDCursor) : StateDict :=
  [(c.entity_type ++ "_id_cursor",
      match c.last_id with
      | some i => StateVal.vInt i
      | none => StateVal.vNone),
   (c.entity_type ++ "_total_synced", StateVal.vInt c.total_synced)]

/-- `IDCursor.from_state` (fetch.py lines 57-63).  `state.get(key)` for
the id cursor yields None for a missing key and the stored value
otherwise; `state.get(key, 0)` for the total defaults a missing key to
0 (a stored non-int for the total, impossible for states written by
`to_state`, is outside the well-typed states modelled here and also
mapped to 0). -/
def IDCursor.from_state (state : StateDict) (entity_type : String) : IDCursor :=
  { entity_type := entity_type
    last_id :=
      match stateGet state (entity_type ++ "_id_cursor") with
      | some (StateVal.vInt i) => some i
      | some (StateVal.vStr _) => none
      | some (StateVal.vBool _) => none
      | some StateVal.vNone => none
      | none => none
    total_synced :=
      match stateGet state (entity_type ++ "_total_synced") with
      | some (StateVal.vInt i) => i
      | some (StateVal.vStr _) => 0
      | some (StateVal.vBool _) => 0
      | some StateVal.vNone => 0
      | none => 0 }

/-- `IDCursor.advance` (fetch.py lines 65-68). -/
def IDCursor.advance (c : IDCursor) (new_max_id : Int) (count : Int) : IDCursor :=
  { c with
    last_id :=
      match c.last_id with
      | none => some new_max_id
      | some l => if new_max_id > l then some new_max_id else some l
    total_synced := c.total_synced + count }

/-- The order on optional ids used by the monotonicity claim: `None`
(no progress yet) is below every integer. -/
def optIdLe : Option Int → Option Int → Prop
  | none, _ => True
  | some _, none => False
  | some a, some b => a ≤ b

theorem optIdLe_refl (a : Option Int) : optIdLe a a := by
  cases a with
  | none => trivial
  | some x => exact le_refl (α := ℤ) x

theorem optIdLe_trans {a b c : Option Int} (h1 : optIdLe a b) (h2 : optIdLe b c) :
    optIdLe a c := by
  cases a with
  | none => trivial
  | some x =>
    cases b with
    | none => exact absurd h1 (by simp [optIdLe])
    | some y =>
      cases c with
      | none => exact absurd h2 (by simp [optIdLe])
      | some z => exact le_trans (α := ℤ) h1 h2

/-- Repeated `advance` calls, in order. -/
def applyAdvances (c : IDCursor) : List (Int × Int) → IDCursor
  | [] => c
  | (n, k) :: ops => applyAdvances (c.advance n k) ops

theorem advance_step_le (c : IDCursor) (n k : Int) :
    optIdLe c.last_id (c.advance n k).last_id := by
  cases hl : c.last_id with
  | none => simp [IDCursor.advance, hl, optIdLe]
  | some l =>
    simp only [IDCursor.advance, hl]
    by_cases h : n > l
    · simp [h, optIdLe]
      omega
    · simp [h, optIdLe]

/-- C1 -- `last_id` never decreases: a single `advance(new_max_id,
count)` call never lowers it (treating an initial `None` as below every
integer), and consequently over any sequence of `advance` calls with
arbitrary integer arguments the final `last_id` is at least the initial
one. -/
theorem idcursor_last_id_monotone :
    (∀ (c : IDCursor) (n k : Int), optIdLe c.last_id (c.advance n k).last_id) ∧
    (∀ (c : IDCursor) (ops : List (Int × Int)),
      optIdLe c.last_id (applyAdvances c ops).last_id) := by
  constructor
  · exact advance_step_le
  · intro c ops
    induction ops generalizing c with
    | nil => exact optIdLe_refl c.last_id
    | cons p ops ih =>
      exact optIdLe_trans (advance_step_le c p.1 p.2) (ih (c.advance p.1 p.2))

theorem entity_key_ne (e : String) :
    e ++ "_id_cursor" ≠ e ++ "_total_synced" := by
  intro h
  have hd := congrArg String.data h
  simp only [String.data_append] at hd
  exact absurd (List.append_cancel_left hd) (by decide)

/-- C9 -- round trip of cursor persistence: `from_state(to_state(c),
c.entity_type) = c` for every cursor, and a state lacking the entity's
keys loads as the no-prior-progress cursor (`last_id = None`,
`total_synced = 0`). -/
theorem idcursor_state_roundtrip :
    (∀ c : IDCursor, IDCursor.from_state c.to_state c.entity_type = c) ∧
    (∀ (state : StateDict) (entity : String),
      stateGet state (entity ++ "_id_cursor") = none →
      stateGet state (entity ++ "_total_synced") = none →
      IDCursor.from_state state entity = ⟨entity, none, 0⟩) := by
  constructor
  · intro c
    obtain ⟨et, lid, ts⟩ := c
    have hne := entity_key_ne et
    have hbeq : (et ++ "_total_synced" == et ++ "_id_cursor") = false :=
      beq_eq_false_iff_ne.mpr (Ne.symm hne)
    cases lid with
    | none =>
      simp [IDCursor.from_state, IDCursor.to_state, stateGet, List.lookup, hbeq]
    | some i =>
      simp [IDCursor.from_state, IDCursor.to_state, stateGet, List.lookup, hbeq]
  · intro state entity h1 h2
    simp [IDCursor.from_state, h1, h2]

/-- Witness for C9: a concrete round trip and a concrete empty state. -/
theorem idcursor_state_roundtrip_witness :
    IDCursor.from_state (IDCursor.to_state ⟨"gifts", some 42, 7⟩) "gifts" =
      ⟨"gifts", some 42, 7⟩ ∧
    IDCursor.from_state ([] : StateDict) "contacts" = ⟨"contacts", none, 0⟩ :=
  ⟨idcursor_state_roundtrip.1 ⟨"gifts", some 42, 7⟩,
   idcursor_state_roundtrip.2 [] "contacts" rfl rfl⟩

end Fetch


namespace Sync

open Fetch

/-! ### Model of src/virtuous/sync.py

The two sync generators are embedded as fuel-indexed recursions over
rounds, returning the ordered trace of events of one run: an event is
either a row appended to the batch buffer (`buffered`, recording a
successfully fetched and transformed row) or a yielded operation
(`upsert` / `checkpoint`), in exactly the generator's yield order.
Raised exceptions end the trace (`Except.error`).

The per-round thread pool (4 futures, results collected via
`as_completed` and then sorted by skip) is modelled by fetching the four
pages in submission order: sorting by skip cancels the completion
order, and an exception from any future aborts the round before
anything is yielded, so the completion order cannot affect the trace.

The externally supplied field mappers (`format_gift`, `format_contact`,
`format_individual`, `format_address`, `format_contact_method`) are
abstract function parameters; dateutil parsing inside
`_extract_gift_date` is abstracted by storing the parse result
(`giftDate : Option String`, the YYYY-MM-DD rendering) on the gift. -/

/-- Pagination configuration of sync.py (lines 23-28). -/
def PAGE_SIZE : Nat := 1000

def BATCH_SIZE : Nat := 4000

def PARALLEL_REQUESTS : Nat := 4

/-- A gift record; `giftDate` is the parsed-and-reformatted gift date
(`None` when the field is missing or unparseable), `raw` identifies the
rest of the record. -/
structure Gift where
  giftDate : Option String
  raw : Nat
  deriving DecidableEq, Repr

/-- `_extract_gift_date` (sync.py lines 31-43): the parse result. -/
def _extract_gift_date (g : Gift) : Option String := g.giftDate

/-- A contact method record (opaque to the sync loop). -/
structure ContactMethod where
  raw : Nat
  deriving DecidableEq, Repr

/-- An individual inside a contact. -/
structure Individual where
  id : Option Int
  contactMethods : List ContactMethod
  raw : Nat
  deriving DecidableEq, Repr

/-- A contact address (`id` is checked for Python truthiness). -/
structure Address where
  id : Option Int
  raw : Nat
  deriving DecidableEq, Repr

/-- A contact record. -/
structure Contact where
  id : Option Int
  address : Option Address
  contactIndividuals : List Individual
  raw : Nat
  deriving DecidableEq, Repr

/-- `str(x.get("id", ""))`: string form of an optional integer id. -/
def idStr : Option Int → String
  | some i => toString i
  | none => ""

/-- An operation yielded by a sync generator. -/
inductive Op (σ : Type) where
  | upsert (table : String) (data : σ)
  | checkpoint (state : StateDict)
  deriving DecidableEq

/-- One event of a run: a row entering the batch buffer, or a yielded
operation. -/
inductive Event (σ : Type) where
  | buffered (table : String) (data : σ)
  | yielded (op : Op σ)
  deriving DecidableEq

/-- `state[key] = value` on the dict model. -/
def stateSet (state : StateDict) (key : String) (v : StateVal) : StateDict :=
  match state with
  | [] => [(key, v)]
  | (k, w) :: rest =>
    if k == key then (key, v) :: rest else (k, w) :: stateSet rest key v

/-- `state.pop(key, None)` on the dict model. -/
def statePop (state : StateDict) (key : String) : StateDict :=
  match state with
  | [] => []
  | (k, w) :: rest => if k == key then rest else (k, w) :: statePop rest key

/-- `state.get(key, dflt)` for an integer-valued key (a non-integer
stored value, impossible for states this code writes, also yields the
default). -/
def stateGetInt (state : StateDict) (key : String) (dflt : Int) : Int :=
  match stateGet state key with
  | some (StateVal.vInt i) => i
  | some (StateVal.vStr _) => dflt
  | some (StateVal.vBool _) => dflt
  | some StateVal.vNone => dflt
  | none => dflt

/-- `state.get(key)` for a string-valued key. -/
def stateGetStr (state : StateDict) (key : String) : Option String :=
  match stateGet state key with
  | some (StateVal.vStr s) => some s
  | some (StateVal.vInt _) => none
  | some (StateVal.vBool _) => none
  | some StateVal.vNone => none
  | none => none

/-- `key in state` (an explicitly stored `None` still counts). -/
def stateContains (state : StateDict) (key : String) : Bool :=
  (stateGet state key).isSome

/-- An optional string as a state value. -/
def optStrVal : Option String → StateVal
  | some s => StateVal.vStr s
  | none => StateVal.vNone

/-- Collect `PARALLEL_REQUESTS` pages in submission order, propagating
the first exception. -/
def collectPages {γ : Type} (fetch1 : Nat → Except String (List γ)) :
    List Nat → Except String (List (List γ))
  | [] => .ok []
  | i :: rest =>
    match fetch1 i with
    | .error m => .error m
    | .ok l =>
      match collectPages fetch1 rest with
      | .error m => .error m
      | .ok ls => .ok (l :: ls)

end Sync


namespace Sync

open Fetch

/-! ### sync_gifts (sync.py lines 46-310) -/

/-- `_migrate_skip_to_date_cursor` (sync.py lines 46-113).  `G` is
`query_gifts` with the configuration applied:
`G skip take modified_since modified_until gift_date_since`. -/
def _migrate_skip_to_date_cursor
    (G : Int → Nat → Option String → Option String → Option String →
      Except String (Response Gift))
    (state : StateDict) : Except String StateDict :=
  let old_skip := stateGetInt state "gifts_skip" 0
  let has_old_state := old_skip > 0 && !stateContains state "gifts_date_cursor"
  if !has_old_state then .ok state
  else
    match G old_skip 1 none none none with
    | .error m => .error m
    | .ok response =>
      match _extract_list response with
      | [] => .error "STATE MIGRATION FAILED: no gift found"
      | gift :: _ =>
        let gift_date := _extract_gift_date gift
        if !truthyStr gift_date then
          .error "STATE MIGRATION FAILED: could not extract giftDate"
        else
          .ok (statePop (stateSet (stateSet state "gifts_date_cursor"
            (optStrVal gift_date)) "gifts_day_skip" (StateVal.vInt 0))
            "gifts_skip")

/-- The inner `for i, gift in enumerate(gifts)` loop (sync.py lines
229-245): returns the rows appended to the batch buffer, in order, and
the updated `last_gift_date_in_batch`.  `buffer_empty` tracks
`len(batch_buffer) == 0` for the debug flag of the very first record. -/
def processGiftList {σ : Type} (fmt : Gift → Bool → σ) :
    List Gift → Nat → Bool → Bool → Option String →
      List (String × σ) × Option String
  | [], _, _, _, last_date => ([], last_date)
  | gift :: gs, i, buffer_empty, is_first, last_date =>
    let gift_date := _extract_gift_date gift
    let last' := if truthyStr gift_date then gift_date else last_date
    let debug := is_first && i == 0 && buffer_empty
    let row := fmt gift debug
    let (rest, lastFinal) := processGiftList fmt gs (i + 1) false is_first last'
    (("gifts", row) :: rest, lastFinal)

/-- The `for page_skip, gifts in results` loop (sync.py lines 223-256):
processes pages in skip order, stops at an empty page or a partial
page; returns the buffered rows of the round, the updated running
total, first-record flag, last gift date, and `reached_end`. -/
def processGiftPages {σ : Type} (fmt : Gift → Bool → σ) :
    List (List Gift) → Bool → Int → Bool → Option String →
      List (String × σ) × Int × Bool × Option String × Bool
  | [], _, total, is_first, last_date => ([], total, is_first, last_date, false)
  | gifts :: rest, buffer_empty, total, is_first, last_date =>
    if gifts.isEmpty then ([], total, is_first, last_date, true)
    else
      let (items, last') := processGiftList fmt gifts 0 buffer_empty is_first last_date
      let total' := total + (gifts.length : Int)
      if gifts.length < PAGE_SIZE then (items, total', false, last', true)
      else
        let (more, total2, is_first2, last2, ended) :=
          processGiftPages fmt rest false total' false last'
        (items ++ more, total2, is_first2, last2, ended)

/-- The date-cursor update inside a flush (sync.py lines 275-288). -/
def advanceDateCursor (date_cursor : Option String) (day_skip : Int)
    (last_gift_date_in_batch : Option String) : Option String × Int :=
  if truthyStr last_gift_date_in_batch then
    match date_cursor with
    | none => (last_gift_date_in_batch, 0)
    | some c =>
      if c < last_gift_date_in_batch.getD "" then (last_gift_date_in_batch, 0)
      else (date_cursor, day_skip)
  else (date_cursor, day_skip)

/-- Final drain and completion (sync.py lines 296-310): yield any
remaining buffered rows, mark gifts complete, clear the cursor fields.
No checkpoint is yielded here. -/
def finishGifts {σ : Type} (state : StateDict) (buffer : List (String × σ)) :
    List (Event σ) × Except String StateDict :=
  (buffer.map (fun p => Event.yielded (Op.upsert p.1 p.2)),
   .ok (statePop (statePop (statePop (stateSet state "gifts_complete"
     (StateVal.vBool true)) "gifts_date_cursor") "gifts_day_skip")
     "gifts_total_synced"))

/-- The `while not reached_end` loop of `sync_gifts` (sync.py lines
189-310), one fuel unit per round.  Returns the events from this point
on and the final state (or the propagated exception; exhausted fuel
ends the trace like an abort). -/
def giftsLoop {σ : Type}
    (G : Int → Nat → Option String → Option String → Option String →
      Except String (Response Gift))
    (fmt : Gift → Bool → σ) (ms mu : Option String) :
    Nat → StateDict → Option String → Int → Int → List (String × σ) →
      Bool → Option String → List (Event σ) × Except String StateDict
  | 0, _, _, _, _, _, _, _ => ([], .error "run truncated (out of fuel)")
  | fuel + 1, state, date_cursor, day_skip, total, buffer, is_first, last_date =>
    match collectPages
        (fun i => (G (day_skip + (i * PAGE_SIZE : Nat)) PAGE_SIZE ms mu
          date_cursor).map _extract_list)
        (List.range PARALLEL_REQUESTS) with
    | .error m => ([], .error m)
    | .ok pages =>
      let (new, total', is_first', last', reached_end) :=
        processGiftPages fmt pages buffer.isEmpty total is_first last_date
      let buffered := new.map (fun p => Event.buffered p.1 p.2)
      let buffer' := buffer ++ new
      let day_skip' := if !reached_end
        then day_skip + ((PARALLEL_REQUESTS * PAGE_SIZE : Nat) : Int)
        else day_skip
      if buffer'.length ≥ BATCH_SIZE then
        let upserts := buffer'.map (fun p => Event.yielded (Op.upsert p.1 p.2))
        let (dc', day_skip'') := advanceDateCursor date_cursor day_skip' last'
        let state' := stateSet (stateSet (stateSet state "gifts_date_cursor"
          (optStrVal dc')) "gifts_day_skip" (StateVal.vInt day_skip''))
          "gifts_total_synced" (StateVal.vInt total')
        let flushEvents := buffered ++ upserts ++
          [Event.yielded (Op.checkpoint state')]
        if reached_end then
          let (fin, res) := finishGifts state' ([] : List (String × σ))
          (flushEvents ++ fin, res)
        else
          let (evs, res) := giftsLoop G fmt ms mu fuel state' dc' day_skip''
            total' [] is_first' last'
          (flushEvents ++ evs, res)
      else
        if reached_end then
          let (fin, res) := finishGifts state buffer'
          (buffered ++ fin, res)
        else
          let (evs, res) := giftsLoop G fmt ms mu fuel state date_cursor
            day_skip' total' buffer' is_first' last'
          (buffered ++ evs, res)

/-- `sync_gifts` (sync.py lines 137-310): migration, state loading, then
the round loop. -/
def sync_gifts_run {σ : Type}
    (G : Int → Nat → Option String → Option String → Option String →
      Except String (Response Gift))
    (fmt : Gift → Bool → σ) (ms mu : Option String)
    (state : StateDict) (fuel : Nat) :
    List (Event σ) × Except String StateDict :=
  match _migrate_skip_to_date_cursor G state with
  | .error m => ([], .error m)
  | .ok state1 =>
    let date_cursor := stateGetStr state1 "gifts_date_cursor"
    let day_skip := stateGetInt state1 "gifts_day_skip" 0
    let total_synced := stateGetInt state1 "gifts_total_synced" 0
    let is_first_record := total_synced == 0
    giftsLoop G fmt ms mu fuel state1 date_cursor day_skip total_synced []
      is_first_record none

end Sync


namespace Sync

open Fetch

/-! ### sync_contacts (sync.py lines 313-531) -/

/-- The rows buffered for one contact (sync.py lines 420-468): the main
contact row, the address (when present with a truthy id), then each
individual followed by its contact methods. -/
def contactRows {σ : Type} (fmtContact : Contact → Bool → σ)
    (fmtAddress : Address → String → σ)
    (fmtIndividual : Individual → String → σ)
    (fmtMethod : ContactMethod → String → String → σ)
    (contact : Contact) (debug : Bool) : List (String × σ) :=
  let contact_id := idStr contact.id
  -- `if address and address.get("id"):` — Python truthiness of the id
  -- (a 0 id is falsy, like a missing one)
  let addressRows :=
    match contact.address with
    | none => []
    | some address =>
      match address.id with
      | none => []
      | some i => if i == 0 then [] else [("addresses", fmtAddress address contact_id)]
  let individualRows := contact.contactIndividuals.flatMap (fun individual =>
    ("individuals", fmtIndividual individual contact_id) ::
      individual.contactMethods.map (fun method =>
        ("contact_methods", fmtMethod method contact_id (idStr individual.id))))
  ("contacts", fmtContact contact debug) :: addressRows ++ individualRows

/-- The inner `for i, contact in enumerate(contacts)` loop (sync.py
lines 420-468): rows appended to the batch buffer, in order, plus the
number of contacts processed. -/
def processContactList {σ : Type} (fmtContact : Contact → Bool → σ)
    (fmtAddress : Address → String → σ)
    (fmtIndividual : Individual → String → σ)
    (fmtMethod : ContactMethod → String → String → σ) :
    List Contact → Nat → Bool → Bool → List (String × σ)
  | [], _, _, _ => []
  | contact :: cs, i, buffer_empty, is_first =>
    let debug := is_first && i == 0 && buffer_empty
    contactRows fmtContact fmtAddress fmtIndividual fmtMethod contact debug ++
      processContactList fmtContact fmtAddress fmtIndividual fmtMethod cs
        (i + 1) false is_first

/-- The `for page_skip, contacts in results` loop (sync.py lines
414-478). -/
def processContactPages {σ : Type} (fmtContact : Contact → Bool → σ)
    (fmtAddress : Address → String → σ)
    (fmtIndividual : Individual → String → σ)
    (fmtMethod : ContactMethod → String → String → σ) :
    List (List Contact) → Bool → Int → Bool →
      List (String × σ) × Int × Bool × Bool
  | [], _, total, is_first => ([], total, is_first, false)
  | contacts :: rest, buffer_empty, total, is_first =>
    if contacts.isEmpty then ([], total, is_first, true)
    else
      let items := processContactList fmtContact fmtAddress fmtIndividual
        fmtMethod contacts 0 buffer_empty is_first
      let total' := total + (contacts.length : Int)
      if contacts.length < PAGE_SIZE then (items, total', false, true)
      else
        let (more, total2, is_first2, ended) :=
          processContactPages fmtContact fmtAddress fmtIndividual fmtMethod
            rest false total' false
        (items ++ more, total2, is_first2, ended)

/-- The end-of-run skip adjustment (sync.py lines 480-488): when the
round reached the end, rewind `skip` to just past the last full page of
the round (unchanged when the round had no full page). -/
def lastFullPageSkip (results : List (Int × List Contact)) (skip : Int) : Int :=
  match (results.reverse).find? (fun p =>
      !p.2.isEmpty && p.2.length == PAGE_SIZE) with
  | some p => p.1 + (PAGE_SIZE : Nat)
  | none => skip

/-- Final drain and completion (sync.py lines 513-531). -/
def finishContacts {σ : Type} (state : StateDict) (buffer : List (String × σ)) :
    List (Event σ) × Except String StateDict :=
  (buffer.map (fun p => Event.yielded (Op.upsert p.1 p.2)),
   .ok (statePop (statePop (stateSet state "contacts_complete"
     (StateVal.vBool true)) "contacts_skip") "contacts_total_synced"))

/-- The `while not reached_end` loop of `sync_contacts` (sync.py lines
381-531), one fuel unit per round.  `C` is `query_contacts` with the
configuration applied: `C skip take modified_since modified_until`. -/
def contactsLoop {σ : Type}
    (C : Int → Nat → Option String → Option String →
      Except String (Response Contact))
    (fmtContact : Contact → Bool → σ) (fmtAddress : Address → String → σ)
    (fmtIndividual : Individual → String → σ)
    (fmtMethod : ContactMethod → String → String → σ)
    (ms mu : Option String) :
    Nat → StateDict → Int → Int → List (String × σ) → Bool →
      List (Event σ) × Except String StateDict
  | 0, _, _, _, _, _ => ([], .error "run truncated (out of fuel)")
  | fuel + 1, state, skip, total, buffer, is_first =>
    match collectPages
        (fun i => (C (skip + (i * PAGE_SIZE : Nat)) PAGE_SIZE ms mu).map
          _extract_list)
        (List.range PARALLEL_REQUESTS) with
    | .error m => ([], .error m)
    | .ok pages =>
      let results := (List.range PARALLEL_REQUESTS).zip pages |>.map
        (fun p => (skip + (p.1 * PAGE_SIZE : Nat), p.2))
      let (new, total', is_first', reached_end) :=
        processContactPages fmtContact fmtAddress fmtIndividual fmtMethod
          pages buffer.isEmpty total is_first
      let buffered := new.map (fun p => Event.buffered p.1 p.2)
      let buffer' := buffer ++ new
      let skip' := if !reached_end
        then skip + ((PARALLEL_REQUESTS * PAGE_SIZE : Nat) : Int)
        else lastFullPageSkip results skip
      if buffer'.length ≥ BATCH_SIZE then
        let upserts := buffer'.map (fun p => Event.yielded (Op.upsert p.1 p.2))
        let state' := stateSet (stateSet state "contacts_skip"
          (StateVal.vInt skip')) "contacts_total_synced" (StateVal.vInt total')
        let flushEvents := buffered ++ upserts ++
          [Event.yielded (Op.checkpoint state')]
        if reached_end then
          let (fin, res) := finishContacts state' ([] : List (String × σ))
          (flushEvents ++ fin, res)
        else
          let (evs, res) := contactsLoop C fmtContact fmtAddress fmtIndividual
            fmtMethod ms mu fuel state' skip' total' [] is_first'
          (flushEvents ++ evs, res)
      else
        if reached_end then
          let (fin, res) := finishContacts state buffer'
          (buffered ++ fin, res)
        else
          let (evs, res) := contactsLoop C fmtContact fmtAddress fmtIndividual
            fmtMethod ms mu fuel state skip' total' buffer' is_first'
          (buffered ++ evs, res)

/-- `sync_contacts` (sync.py lines 334-531). -/
def sync_contacts_run {σ : Type}
    (C : Int → Nat → Option String → Option String →
      Except String (Response Contact))
    (fmtContact : Contact → Bool → σ) (fmtAddress : Address → String → σ)
    (fmtIndividual : Individual → String → σ)
    (fmtMethod : ContactMethod → String → String → σ)
    (ms mu : Option String) (state : StateDict) (fuel : Nat) :
    List (Event σ) × Except String StateDict :=
  let skip := stateGetInt state "contacts_skip" 0
  let total_contacts := stateGetInt state "contacts_total_synced" 0
  let is_first_record := total_contacts == 0
  contactsLoop C fmtContact fmtAddress fmtIndividual fmtMethod ms mu fuel
    state skip total_contacts [] is_first_record

end Sync


namespace Sync

open Fetch

/-! ### C8: flush ordering -/

/-- Trace checker for the at-least-once flush discipline.  It walks the
event list with the queue of rows that entered the batch buffer but
have not been yielded yet: a buffered row is enqueued; an `upsert` must
replay the oldest pending row exactly; a `checkpoint` is only legal
when no pending row remains (every buffered row was upserted first).
Returns `none` on a violation, otherwise the final pending queue. -/
def checkEvents {σ : Type} [DecidableEq σ] :
    List (Event σ) → List (String × σ) → Option (List (String × σ))
  | [], pending => some pending
  | e :: es, pending =>
    match e with
    | .buffered t d => checkEvents es (pending ++ [(t, d)])
    | .yielded (.upsert t d) =>
      match pending with
      | [] => none
      | (t', d') :: rest =>
        if t = t' ∧ d = d' then checkEvents es rest else none
    | .yielded (.checkpoint _) =>
      match pending with
      | [] => checkEvents es []
      | _ :: _ => none

/-- A trace respects the flush discipline: no checkpoint is yielded
while a fetched row has not been upserted, and upserts replay the
buffered rows in order. -/
def flushOrderOK {σ : Type} [DecidableEq σ] (events : List (Event σ)) : Bool :=
  (checkEvents events []).isSome

theorem checkEvents_append {σ : Type} [DecidableEq σ] :
    ∀ (a b : List (Event σ)) (p : List (String × σ)),
      checkEvents (a ++ b) p =
        match checkEvents a p with
        | none => none
        | some q => checkEvents b q := by
  intro a
  induction a with
  | nil => intro b p; rfl
  | cons e es ih =>
    intro b p
    cases e with
    | buffered t d =>
      simp only [List.cons_append, checkEvents]
      exact ih b _
    | yielded op =>
      cases op with
      | upsert t d =>
        cases p with
        | nil => rfl
        | cons hd rest =>
          obtain ⟨t', d'⟩ := hd
          by_cases h : t = t' ∧ d = d'
          · simp only [List.cons_append, checkEvents, if_pos h]
            exact ih b _
          · simp only [List.cons_append, checkEvents, if_neg h]
      | checkpoint s =>
        cases p with
        | nil =>
          simp only [List.cons_append, checkEvents]
          exact ih b _
        | cons hd rest => rfl

theorem checkEvents_buffered_run {σ : Type} [DecidableEq σ] :
    ∀ (new : List (String × σ)) (p : List (String × σ)),
      checkEvents (new.map (fun q => Event.buffered q.1 q.2)) p =
        some (p ++ new) := by
  intro new
  induction new with
  | nil => intro p; simp [checkEvents]
  | cons q qs ih =>
    intro p
    simp only [List.map_cons, checkEvents, ih]
    simp

theorem checkEvents_upsert_run {σ : Type} [DecidableEq σ] :
    ∀ l : List (String × σ),
      checkEvents (l.map (fun q => Event.yielded (Op.upsert q.1 q.2))) l =
        some [] := by
  intro l
  induction l with
  | nil => rfl
  | cons q qs ih =>
    obtain ⟨t, d⟩ := q
    simp only [List.map_cons, checkEvents, and_self, eq_self_iff_true, if_true]
    exact ih

theorem giftsLoop_flush_order {σ : Type} [DecidableEq σ]
    (G : Int → Nat → Option String → Option String → Option String →
      Except String (Response Gift))
    (fmt : Gift → Bool → σ) (ms mu : Option String) :
    ∀ (fuel : Nat) (state : StateDict) (dc : Option String)
      (day_skip total : Int) (buffer : List (String × σ)) (is_first : Bool)
      (last_date : Option String),
      (checkEvents (giftsLoop G fmt ms mu fuel state dc day_skip total buffer
        is_first last_date).1 buffer).isSome = true := by
  intro fuel
  induction fuel with
  | zero =>
    intro state dc day_skip total buffer is_first last_date
    simp [giftsLoop, checkEvents]
  | succ fuel ih =>
    intro state dc day_skip total buffer is_first last_date
    simp only [giftsLoop]
    cases hpg : collectPages
        (fun i => (G (day_skip + (i * PAGE_SIZE : Nat)) PAGE_SIZE ms mu
          dc).map _extract_list)
        (List.range PARALLEL_REQUESTS) with
    | error m => simp [checkEvents]
    | ok pages =>
      rcases hproc : processGiftPages fmt pages buffer.isEmpty total is_first
        last_date with ⟨new, total', is_first', last', ended⟩
      simp only [hproc]
      by_cases hflush : (buffer ++ new).length ≥ BATCH_SIZE
      · rw [if_pos hflush]
        cases ended with
        | true =>
          simp only [eq_self_iff_true, if_true, finishGifts, List.map_nil,
            List.append_nil, checkEvents_append, checkEvents_buffered_run,
            checkEvents_upsert_run]
          simp [checkEvents]
        | false =>
          simp only [Bool.false_eq_true, if_false, checkEvents_append,
            checkEvents_buffered_run, checkEvents_upsert_run]
          simp only [checkEvents]
          exact ih _ _ _ _ _ _ _
      · rw [if_neg hflush]
        cases ended with
        | true =>
          simp only [eq_self_iff_true, if_true, finishGifts, checkEvents_append,
            checkEvents_buffered_run, checkEvents_upsert_run]
          rfl
        | false =>
          simp only [Bool.false_eq_true, if_false, checkEvents_append,
            checkEvents_buffered_run]
          exact ih _ _ _ _ _ _ _

theorem contactsLoop_flush_order {σ : Type} [DecidableEq σ]
    (C : Int → Nat → Option String → Option String →
      Except String (Response Contact))
    (fmtContact : Contact → Bool → σ) (fmtAddress : Address → String → σ)
    (fmtIndividual : Individual → String → σ)
    (fmtMethod : ContactMethod → String → String → σ)
    (ms mu : Option String) :
    ∀ (fuel : Nat) (state : StateDict) (skip total : Int)
      (buffer : List (String × σ)) (is_first : Bool),
      (checkEvents (contactsLoop C fmtContact fmtAddress fmtIndividual
        fmtMethod ms mu fuel state skip total buffer is_first).1
        buffer).isSome = true := by
  intro fuel
  induction fuel with
  | zero =>
    intro state skip total buffer is_first
    simp [contactsLoop, checkEvents]
  | succ fuel ih =>
    intro state skip total buffer is_first
    simp only [contactsLoop]
    cases hpg : collectPages
        (fun i => (C (skip + (i * PAGE_SIZE : Nat)) PAGE_SIZE ms mu).map
          _extract_list)
        (List.range PARALLEL_REQUESTS) with
    | error m => simp [checkEvents]
    | ok pages =>
      rcases hproc : processContactPages fmtContact fmtAddress fmtIndividual
        fmtMethod pages buffer.isEmpty total is_first
        with ⟨new, total', is_first', ended⟩
      simp only [hproc]
      by_cases hflush : (buffer ++ new).length ≥ BATCH_SIZE
      · rw [if_pos hflush]
        cases ended with
        | true =>
          simp only [eq_self_iff_true, if_true, finishContacts, List.map_nil,
            List.append_nil, checkEvents_append, checkEvents_buffered_run,
            checkEvents_upsert_run]
          simp [checkEvents]
        | false =>
          simp only [Bool.false_eq_true, if_false, checkEvents_append,
            checkEvents_buffered_run, checkEvents_upsert_run]
          simp only [checkEvents]
          exact ih _ _ _ _ _
      · rw [if_neg hflush]
        cases ended with
        | true =>
          simp only [eq_self_iff_true, if_true, finishContacts, checkEvents_append,
            checkEvents_buffered_run, checkEvents_upsert_run]
          rfl
        | false =>
          simp only [Bool.false_eq_true, if_false, checkEvents_append,
            checkEvents_buffered_run]
          exact ih _ _ _ _ _

/-- C8 -- in every run of `sync_gifts` or `sync_contacts` (any query
oracle, mappers, incremental window, initial state and round budget),
the yielded operation sequence respects the flush discipline: each
flush yields an upsert for every row in the batch buffer — replaying
the buffered rows in order — before yielding that flush's single
checkpoint, so a checkpoint is never yielded while a successfully
fetched row has not been upserted (at-least-once emission before the
covering checkpoint). -/
theorem sync_flush_order_at_least_once {σ : Type} [DecidableEq σ] :
    (∀ (G : Int → Nat → Option String → Option String → Option String →
        Except String (Response Gift))
      (fmt : Gift → Bool → σ) (ms mu : Option String) (state : StateDict)
      (fuel : Nat),
      flushOrderOK (sync_gifts_run G fmt ms mu state fuel).1 = true) ∧
    (∀ (C : Int → Nat → Option String → Option String →
        Except String (Response Contact))
      (fmtContact : Contact → Bool → σ) (fmtAddress : Address → String → σ)
      (fmtIndividual : Individual → String → σ)
      (fmtMethod : ContactMethod → String → String → σ)
      (ms mu : Option String) (state : StateDict) (fuel : Nat),
      flushOrderOK (sync_contacts_run C fmtContact fmtAddress fmtIndividual
        fmtMethod ms mu state fuel).1 = true) := by
  constructor
  · intro G fmt ms mu state fuel
    unfold flushOrderOK sync_gifts_run
    cases _migrate_skip_to_date_cursor G state with
    | error m => rfl
    | ok state1 => exact giftsLoop_flush_order G fmt ms mu fuel _ _ _ _ _ _ _
  · intro C fmtContact fmtAddress fmtIndividual fmtMethod ms mu state fuel
    unfold flushOrderOK sync_contacts_run
    exact contactsLoop_flush_order C fmtContact fmtAddress fmtIndividual
      fmtMethod ms mu fuel _ _ _ _ _

end Sync

end FivetranVirtuous
